import Mathlib

/-!
Verification of the RBAC core of a FastAPI boilerplate: the permission
registry (src/app/core/permissions.py), the unit-of-work transaction
decorator (src/app/core/decorators/unit_of_work.py), the role-permission
assignment protocol (src/app/api/v1/permissions.py,
src/app/crud/crud_permission_maps.py) and the user-role assignment
protocol (src/app/api/v1/user_roles.py, src/app/crud/crud_user_roles.py).

Each Python function is shallowly embedded as an executable Lean
definition over explicit stores (lists of rows) and an explicit session
state; the claims about the code are then proved or refuted against
these definitions.
-/

/- ===== Permission registry (src/app/core/permissions.py) ===== -/

/-- Embedding of the `PermissionNode` dataclass: `name`, `display_name`,
and an ordered list of `children`. -/
inductive PermissionNode where
  | mk (name : String) (display_name : Option String) (children : List PermissionNode)

def PermissionNode.name : PermissionNode → String
  | PermissionNode.mk n _ _ => n

def PermissionNode.children : PermissionNode → List PermissionNode
  | PermissionNode.mk _ _ c => c

mutual

/-- Embedding of `flatten_permissions`: the inner `_walk` appends the
node name and then walks the children in order, so the result is the
preorder listing of names. `flattenChildren` is the loop over
`node.children`. -/
def flatten_permissions : PermissionNode → List String
  | PermissionNode.mk n _ children => n :: flattenChildren children

/-- The walk over `node.children` inside `flatten_permissions`. -/
def flattenChildren : List PermissionNode → List String
  | [] => []
  | c :: cs => flatten_permissions c ++ flattenChildren cs

end

/-- The `permission_user_manage` subtree built at import time. -/
def permission_user_manage : PermissionNode :=
  PermissionNode.mk "user:manage" (some "用户管理")
    [ PermissionNode.mk "user:create" (some "创建用户") [],
      PermissionNode.mk "user:read" (some "查看用户") [],
      PermissionNode.mk "user:update" (some "更新用户") [],
      PermissionNode.mk "user:delete" (some "删除用户") [] ]

/-- The `permission_role_manage` subtree built at import time. -/
def permission_role_manage : PermissionNode :=
  PermissionNode.mk "role:manage" (some "角色管理")
    [ PermissionNode.mk "role:create" (some "创建角色") [],
      PermissionNode.mk "role:read" (some "查看角色") [],
      PermissionNode.mk "role:update" (some "更新角色") [],
      PermissionNode.mk "role:assign" (some "分配角色权限") [],
      PermissionNode.mk "role:revoke" (some "撤销角色权限") [],
      PermissionNode.mk "role:delete" (some "删除角色") [] ]

/-- The registry root `permission_root`. -/
def permission_root : PermissionNode :=
  PermissionNode.mk "root" (some "系统权限")
    [permission_user_manage, permission_role_manage]

theorem flattenChildren_eq_join (cs : List PermissionNode) :
    flattenChildren cs = (cs.map flatten_permissions).flatten := by
  induction cs with
  | nil => rfl
  | cons c cs ih => simp [flattenChildren, ih]

/-- Claim C8: `flatten_permissions` is a deterministic preorder
traversal: two calls on the unchanged registry agree, every node emits
its own name before its children and visits the children in their
declared order, and on the registry root it yields the declared
thirteen names in preorder. -/
theorem flatten_permissions_preorder_deterministic :
    flatten_permissions permission_root = flatten_permissions permission_root ∧
    (∀ n d cs, flatten_permissions (PermissionNode.mk n d cs) =
      n :: (cs.map flatten_permissions).flatten) ∧
    flatten_permissions permission_root =
      ["root", "user:manage", "user:create", "user:read", "user:update",
       "user:delete", "role:manage", "role:create", "role:read",
       "role:update", "role:assign", "role:revoke", "role:delete"] := by
  refine ⟨rfl, ?_, rfl⟩
  intro n d cs
  simp [flatten_permissions, flattenChildren_eq_join]

/- ===== User-role assignment (src/app/crud/crud_user_roles.py and
src/app/api/v1/user_roles.py) ===== -/

/-- A Python runtime value that may flow into the `role_id` column: the
annotations say `int`, but `grant_user_roles` passes a whole list, so
the embedding keeps both shapes. -/
inductive PyVal where
  | int (n : Nat)
  | list (ns : List Nat)
deriving DecidableEq, Repr

/-- A `UserRole` row of the `user_role` join table: `(user_id, role_id)`. -/
structure UserRole where
  user_id : Nat
  role_id : PyVal
deriving DecidableEq, Repr

/-- Embedding of `assign_role_to_user`: select the row matching both
`user_id` and `role_id`; if one exists return the store unchanged,
otherwise `db.add` a new row. -/
def assign_role_to_user (store : List UserRole) (user_id : Nat) (role_id : PyVal) :
    List UserRole :=
  match store.find? (fun r => r.user_id == user_id && r.role_id == role_id) with
  | some _ => store
  | none => store ++ [UserRole.mk user_id role_id]

/-- Embedding of the `grant_user_roles` route body (the part inside the
`@transactional()` scope). `users` and `roles` are the ids present in
the user and role tables (`crud_users.get` / `crud_roles.get`); `store`
is the `user_role` table. Faithful to the source, the whole `role_ids`
list is handed to `assign_role_to_user` as its single `role_id`
argument, and no existing row is deleted. -/
def grant_user_roles (users : List Nat) (roles : List Nat) (store : List UserRole)
    (user_id : Nat) (role_ids_in : Option (List Nat)) :
    Except String (List UserRole × List Nat) :=
  if users.contains user_id = false then Except.error "User not found"
  else
    let role_ids := role_ids_in.getD []
    match role_ids.find? (fun rid => !roles.contains rid) with
    | some rid => Except.error ("Role not found: " ++ toString rid)
    | none =>
      Except.ok (assign_role_to_user store user_id (PyVal.list role_ids), role_ids)

/-- The `@transactional()` wrapper around `grant_user_roles`: on success
the mutated store commits, on an exception the transaction rolls back
and the store is unchanged. -/
def run_grant_user_roles (users : List Nat) (roles : List Nat) (store : List UserRole)
    (user_id : Nat) (role_ids_in : Option (List Nat)) :
    Option String × List UserRole :=
  match grant_user_roles users roles store user_id role_ids_in with
  | Except.ok (store2, _) => (none, store2)
  | Except.error e => (some e, store)

/-- Claim C1: refuted by evaluation — the replace operation does not
clear existing assignments. User 1 has one existing assignment and the
request carries an empty role list; the spec demands zero remaining
rows for user 1, but the code deletes nothing and instead adds one
malformed row whose `role_id` is the empty list itself, leaving two
rows for user 1. -/
theorem grant_user_roles_empty_input_keeps_roles :
    run_grant_user_roles [1] [5] [UserRole.mk 1 (PyVal.int 5)] 1 (some []) =
      (none, [UserRole.mk 1 (PyVal.int 5), UserRole.mk 1 (PyVal.list [])]) ∧
    ((run_grant_user_roles [1] [5] [UserRole.mk 1 (PyVal.int 5)] 1 (some [])).2.filter
        (fun r => r.user_id == 1)).length = 2 := by
  constructor <;> rfl

/-- Claim C10: `assign_role_to_user` is idempotent at the row level: a
pair already present leaves the store untouched, a second identical
call is a no-op, and the call never brings the count of the pair above
`max 1` of its previous count. -/
theorem assign_role_to_user_idempotent (store : List UserRole) (u : Nat) (r : PyVal) :
    (UserRole.mk u r ∈ store → assign_role_to_user store u r = store) ∧
    assign_role_to_user (assign_role_to_user store u r) u r =
      assign_role_to_user store u r ∧
    (assign_role_to_user store u r).count (UserRole.mk u r) ≤
      max 1 (store.count (UserRole.mk u r)) := by
  unfold assign_role_to_user
  cases hf : store.find? (fun row => row.user_id == u && row.role_id == r) with
  | some row =>
    refine ⟨fun _ => rfl, ?_, ?_⟩
    · simp [hf]
    · exact le_max_right _ _
  | none =>
    have hnotmem : UserRole.mk u r ∉ store := by
      intro hmem
      have := List.find?_eq_none.mp hf (UserRole.mk u r) hmem
      simp at this
    refine ⟨fun hmem => absurd hmem hnotmem, ?_, ?_⟩
    · cases hf2 : (store ++ [UserRole.mk u r]).find?
        (fun row => row.user_id == u && row.role_id == r) with
      | some row => rfl
      | none =>
        exfalso
        have hmem : UserRole.mk u r ∈ store ++ [UserRole.mk u r] := by simp
        have := List.find?_eq_none.mp hf2 (UserRole.mk u r) hmem
        simp at this
    · have hz : store.count (UserRole.mk u r) = 0 := List.count_eq_zero.mpr hnotmem
      simp [List.count_append, hz]

/-- Witness for claim C10 at a concrete store: the pair (1, 2) is
already present, so the call leaves the store unchanged. -/
theorem assign_role_to_user_idempotent_witness :
    assign_role_to_user [UserRole.mk 1 (PyVal.int 2)] 1 (PyVal.int 2) =
      [UserRole.mk 1 (PyVal.int 2)] :=
  (assign_role_to_user_idempotent [UserRole.mk 1 (PyVal.int 2)] 1 (PyVal.int 2)).1
    (by decide)

/- ===== Role-permission assignment (src/app/crud/crud_permission_maps.py
and src/app/api/v1/permissions.py) ===== -/

/-- A `PermissionMap` row for a role: `(permission_name, role_id)`. The
schema also carries an optional `user_id`, but the assignment protocol
never sets it, so role-owned rows are modelled. -/
structure PermissionMap where
  permission_name : String
  role_id : Nat
deriving DecidableEq, Repr

/-- Embedding of `assign_permissions_to_role`: delete every existing row
of the role, then add one row per element of `list(set(names))`. The
Python set has no specified order, so the deduplicated list is modelled
by `List.dedup` (one occurrence per distinct name). -/
def assign_permissions_to_role (store : List PermissionMap) (role_id : Nat)
    (permission_names : Option (List String)) : List PermissionMap :=
  let remaining := store.filter (fun row => !(row.role_id == role_id))
  let unique_permissions := (permission_names.getD []).dedup
  remaining ++ unique_permissions.map (fun n => PermissionMap.mk n role_id)

/-- Embedding of the `grant_role_permissions` route body (the part
inside the `@transactional()` scope): verify the role exists, check
every incoming name against the flattened registry (the first unknown
name raises NotFound), then replace the rows and return the raw
`incoming_names` together with the new store. -/
def grant_role_permissions (roles : List Nat) (store : List PermissionMap)
    (role_id : Nat) (perm_names_in : Option (List String)) :
    Except String (List PermissionMap × List String) :=
  if roles.contains role_id = false then Except.error "Role not found"
  else
    let incoming_names := perm_names_in.getD []
    let allowed := flatten_permissions permission_root
    match incoming_names.find? (fun n => !allowed.contains n) with
    | some n => Except.error ("Permission not found: " ++ n)
    | none =>
      Except.ok (assign_permissions_to_role store role_id (some incoming_names),
        incoming_names)

/-- The `@transactional()` wrapper around `grant_role_permissions`: on
success the mutated store commits, on an exception the transaction
rolls back and the store is unchanged. -/
def run_grant_role_permissions (roles : List Nat) (store : List PermissionMap)
    (role_id : Nat) (perm_names_in : Option (List String)) :
    Option String × List PermissionMap :=
  match grant_role_permissions roles store role_id perm_names_in with
  | Except.ok (store2, _) => (none, store2)
  | Except.error e => (some e, store)

/-- Claim C5: when at least one incoming name is missing from the
flattened registry, the operation raises NotFound naming an offending
permission (the first one, which is both in the input and unknown) and
the store is exactly what it was before the call. -/
theorem grant_role_permissions_validation_precedes_mutation (roles : List Nat)
    (store : List PermissionMap) (role_id : Nat) (ns : List String)
    (hrole : roles.contains role_id = true)
    (hbad : ∃ n ∈ ns, n ∉ flatten_permissions permission_root) :
    ∃ bad ∈ ns, bad ∉ flatten_permissions permission_root ∧
      run_grant_role_permissions roles store role_id (some ns) =
        (some ("Permission not found: " ++ bad), store) := by
  have hfind : (ns.find?
      (fun n => !(flatten_permissions permission_root).contains n)).isSome := by
    rw [List.find?_isSome]
    obtain ⟨n, hmem, hn⟩ := hbad
    exact ⟨n, hmem, by simpa using hn⟩
  cases hf : ns.find? (fun n => !(flatten_permissions permission_root).contains n) with
  | none => rw [hf] at hfind; simp at hfind
  | some bad =>
    refine ⟨bad, List.mem_of_find?_eq_some hf, ?_, ?_⟩
    · have := List.find?_some hf
      simpa using this
    · simp only [run_grant_role_permissions, grant_role_permissions, hrole,
        Option.getD_some]
      rw [hf]
      simp

/-- Witness for claim C5: role 1 exists, the store holds one row, and
the input contains the unknown name "bogus:name"; the call reports it
and leaves the store unchanged. -/
theorem grant_role_permissions_validation_witness :
    ∃ bad ∈ ["user:read", "bogus:name"],
      bad ∉ flatten_permissions permission_root ∧
      run_grant_role_permissions [1] [PermissionMap.mk "user:read" 1] 1
          (some ["user:read", "bogus:name"]) =
        (some ("Permission not found: " ++ bad), [PermissionMap.mk "user:read" 1]) :=
  grant_role_permissions_validation_precedes_mutation [1]
    [PermissionMap.mk "user:read" 1] 1 ["user:read", "bogus:name"] (by decide)
    (by decide)

/-- Claim C6: on valid input the stored rows of the role after the call
are exactly one row per distinct incoming name — previously stored rows
of the role are gone, repeats collapse to one row — while rows of other
roles are untouched. -/
theorem grant_role_permissions_full_replace (roles : List Nat)
    (store : List PermissionMap) (role_id : Nat) (ns : List String)
    (hrole : roles.contains role_id = true)
    (hvalid : ∀ n ∈ ns, n ∈ flatten_permissions permission_root) :
    ∃ store2,
      grant_role_permissions roles store role_id (some ns) =
        Except.ok (store2, ns) ∧
      (∀ n, store2.count (PermissionMap.mk n role_id) = if n ∈ ns then 1 else 0) ∧
      store2.filter (fun row => !(row.role_id == role_id)) =
        store.filter (fun row => !(row.role_id == role_id)) := by
  have hfind : ns.find?
      (fun n => !(flatten_permissions permission_root).contains n) = none := by
    apply List.find?_eq_none.mpr
    intro x hx
    simpa using hvalid x hx
  refine ⟨assign_permissions_to_role store role_id (some ns), ?_, ?_, ?_⟩
  · simp only [grant_role_permissions, hrole, Option.getD_some]
    rw [hfind]
    simp
  · intro n
    unfold assign_permissions_to_role
    simp only [Option.getD_some]
    rw [List.count_append]
    have h1 : (store.filter (fun row => !(row.role_id == role_id))).count
        (PermissionMap.mk n role_id) = 0 := by
      apply List.count_eq_zero.mpr
      intro hmem
      have := List.of_mem_filter hmem
      simp at this
    have hinj : Function.Injective (fun m => PermissionMap.mk m role_id) :=
      fun a b hab => by simpa using congrArg PermissionMap.permission_name hab
    have h2 : ((ns.dedup).map (fun m => PermissionMap.mk m role_id)).count
        (PermissionMap.mk n role_id) = ns.dedup.count n :=
      List.count_map_of_injective ns.dedup (fun m => PermissionMap.mk m role_id) hinj n
    rw [h1, h2, List.count_dedup]
    simp
  · unfold assign_permissions_to_role
    simp only [Option.getD_some]
    rw [List.filter_append]
    have h1 : ((ns.dedup).map (fun m => PermissionMap.mk m role_id)).filter
        (fun row => !(row.role_id == role_id)) = [] := by
      rw [List.filter_eq_nil_iff]
      intro a ha
      obtain ⟨m, hm, rfl⟩ := List.mem_map.mp ha
      simp
    have h2 : (store.filter (fun row => !(row.role_id == role_id))).filter
        (fun row => !(row.role_id == role_id)) =
        store.filter (fun row => !(row.role_id == role_id)) := by
      rw [List.filter_filter]
      simp
    rw [h1, h2, List.append_nil]

/-- Witness for claim C6: role 1 exists, the store holds an old row for
role 1 and a row for role 2, and the input repeats a name; applying the
theorem at this input yields the replaced store. -/
theorem grant_role_permissions_full_replace_witness :
    ∃ store2,
      grant_role_permissions [1]
          [PermissionMap.mk "role:read" 1, PermissionMap.mk "user:read" 2] 1
          (some ["user:create", "user:create", "user:read"]) =
        Except.ok (store2, ["user:create", "user:create", "user:read"]) ∧
      (∀ n, store2.count (PermissionMap.mk n 1) =
        if n ∈ ["user:create", "user:create", "user:read"] then 1 else 0) ∧
      store2.filter (fun row => !(row.role_id == 1)) =
        [PermissionMap.mk "role:read" 1, PermissionMap.mk "user:read" 2].filter
          (fun row => !(row.role_id == 1)) :=
  grant_role_permissions_full_replace [1]
    [PermissionMap.mk "role:read" 1, PermissionMap.mk "user:read" 2] 1
    ["user:create", "user:create", "user:read"] (by decide) (by decide)

/-- Claim C7, counterexample: with the repeated input
`["user:read", "user:read"]` on existing role 1 the call succeeds, but
the returned `permission_names` component is the raw input list, in
which the distinct name "user:read" occurs twice, not exactly once —
only the stored rows are deduplicated. -/
theorem grant_role_permissions_raw_return_counterexample :
    grant_role_permissions [1] [] 1 (some ["user:read", "user:read"]) =
      Except.ok ([PermissionMap.mk "user:read" 1], ["user:read", "user:read"]) ∧
    (["user:read", "user:read"].count "user:read" = 2 ∧
      ¬ (["user:read", "user:read"].count "user:read" = 1)) := by
  refine ⟨rfl, by decide, by decide⟩

/-- Claim C7 as amended: on valid input the call succeeds and its
`permission_names` component is the incoming name sequence exactly as
provided, repeats and order preserved; deduplication applies only to
the stored rows. -/
theorem grant_role_permissions_returns_input_verbatim (roles : List Nat)
    (store : List PermissionMap) (role_id : Nat) (ns : List String)
    (hrole : roles.contains role_id = true)
    (hvalid : ∀ n ∈ ns, n ∈ flatten_permissions permission_root) :
    ∃ store2,
      grant_role_permissions roles store role_id (some ns) =
        Except.ok (store2, ns) := by
  have hfind : ns.find?
      (fun n => !(flatten_permissions permission_root).contains n) = none := by
    apply List.find?_eq_none.mpr
    intro x hx
    simpa using hvalid x hx
  refine ⟨assign_permissions_to_role store role_id (some ns), ?_⟩
  simp only [grant_role_permissions, hrole, Option.getD_some]
  rw [hfind]
  simp

/-- Witness for the amended claim C7: a duplicated valid input comes
back verbatim. -/
theorem grant_role_permissions_returns_input_verbatim_witness :
    ∃ store2,
      grant_role_permissions [1] [] 1 (some ["user:read", "user:read", "role:read"]) =
        Except.ok (store2, ["user:read", "user:read", "role:read"]) :=
  grant_role_permissions_returns_input_verbatim [1] [] 1
    ["user:read", "user:read", "role:read"] (by decide) (by decide)

/- ===== Unit of Work decorator
(src/app/core/decorators/unit_of_work.py) ===== -/

/-- The ambient session: `committed` is the durable database content and
`txBuf` the pending writes of the currently open top-level transaction
(`none` when no transaction is open). -/
structure SessionState where
  committed : List Nat
  txBuf : Option (List Nat)
deriving DecidableEq, Repr

/-- Embedding of `AsyncSession.in_transaction()`. -/
def SessionState.in_transaction (s : SessionState) : Bool := s.txBuf.isSome

/-- One step of a wrapped operation: stage a write through the session
(`db.add`) or raise an exception carrying the value `e`. -/
inductive Op where
  | add (w : Nat)
  | raiseErr (e : Nat)
deriving DecidableEq, Repr

/-- Run the wrapped operation body against the pending-write buffer:
returns the exception raised (if any) and the buffer at that moment. -/
def runOps : List Op → List Nat → Option Nat × List Nat
  | [], buf => (none, buf)
  | Op.add w :: rest, buf => runOps rest (buf ++ [w])
  | Op.raiseErr e :: _, buf => (some e, buf)

/-- The calls the wrapper makes on the session object. -/
inductive SessCall where
  | inTransactionQ
  | beginTop
  | beginNested
  | savepointRollback
  | txCommit
  | txRollback
deriving DecidableEq, Repr

/-- A Python argument as seen by the wrapper: either a live
`AsyncSession` or some other object (which fails the `isinstance`
check, as `None` does). -/
inductive PyArg where
  | session (s : SessionState)
  | other
deriving DecidableEq, Repr

/-- Embedding of the session lookup in `wrapper` (lines 53 to 69): take
`kwargs[db_param_name]` when the key is present, otherwise find the
position of `db_param_name` in the signature parameter names and take
the positional argument there when it exists. -/
def locate_db_session (db_param_name : String) (param_names : List String)
    (args : List PyArg) (kwargs : List (String × PyArg)) : Option PyArg :=
  match kwargs.lookup db_param_name with
  | some v => some v
  | none =>
    match param_names.findIdx? (fun p => p == db_param_name) with
    | some i => args.get? i
    | none => none

/-- Embedding of `isinstance(db_session, AsyncSession)` on the located
argument (`None`, a non-session object, and no argument at all each
fail the check). -/
def is_async_session : Option PyArg → Bool
  | some (PyArg.session _) => true
  | _ => false

/-- Outcome of one wrapper invocation: a `MissingDatabaseSessionError`
raised before touching the session, or a completed run with the
re-raised exception (if any), the resulting session state, and the
calls made on the session. -/
inductive WrapOutcome where
  | configError (msg : String) (sessionCalls : List SessCall)
  | completed (raised : Option Nat) (finalSession : SessionState)
      (sessionCalls : List SessCall)
deriving DecidableEq, Repr

def WrapOutcome.calls : WrapOutcome → List SessCall
  | WrapOutcome.configError _ cs => cs
  | WrapOutcome.completed _ _ cs => cs

def WrapOutcome.raisedErr : WrapOutcome → Option Nat
  | WrapOutcome.configError _ _ => none
  | WrapOutcome.completed r _ _ => r

def WrapOutcome.isConfigError : WrapOutcome → Bool
  | WrapOutcome.configError _ _ => true
  | WrapOutcome.completed _ _ _ => false

def WrapOutcome.finalSession : WrapOutcome → Option SessionState
  | WrapOutcome.configError _ _ => none
  | WrapOutcome.completed _ s _ => some s

/-- Embedding of `unit_of_work(db_param_name, commit_on_success)`
applied to a body, lines 51 to 106 of the source. The located argument
must be an `AsyncSession`, otherwise `MissingDatabaseSessionError` is
raised with no session call made. With a session in an active
transaction, `begin_nested` opens a savepoint: on success the savepoint
merges into the parent on scope exit (the branch on `commit_on_success`
is a no-op `pass`), on an exception only the savepoint is rolled back
and the exception re-raised. With no active transaction, `begin` opens
a top-level transaction that commits on scope exit on success and rolls
back on an exception, re-raising it. -/
def uow_wrapper (db_param_name : String) (commit_on_success : Bool)
    (param_names : List String) (args : List PyArg)
    (kwargs : List (String × PyArg)) (body : List Op) : WrapOutcome :=
  match locate_db_session db_param_name param_names args kwargs with
  | some (PyArg.session s) =>
    match s.txBuf with
    | some buf =>
      match runOps body buf with
      | (none, buf2) =>
        WrapOutcome.completed none (SessionState.mk s.committed (some buf2))
          [SessCall.inTransactionQ, SessCall.beginNested]
      | (some e, _) =>
        WrapOutcome.completed (some e) (SessionState.mk s.committed (some buf))
          [SessCall.inTransactionQ, SessCall.beginNested, SessCall.savepointRollback]
    | none =>
      match runOps body [] with
      | (none, buf2) =>
        WrapOutcome.completed none (SessionState.mk (s.committed ++ buf2) none)
          [SessCall.inTransactionQ, SessCall.beginTop, SessCall.txCommit]
      | (some e, _) =>
        WrapOutcome.completed (some e) (SessionState.mk s.committed none)
          [SessCall.inTransactionQ, SessCall.beginTop, SessCall.txRollback]
  | _ =>
    WrapOutcome.configError
      ("AsyncSession not found or invalid type for parameter " ++ db_param_name) []

/-- Embedding of `transactional(db_param_name)`:
`unit_of_work(db_param_name, commit_on_success=True)`. -/
def transactional (db_param_name : String) (param_names : List String)
    (args : List PyArg) (kwargs : List (String × PyArg)) (body : List Op) :
    WrapOutcome :=
  uow_wrapper db_param_name true param_names args kwargs body

/-- Embedding of `read_only_transaction(db_param_name)`:
`unit_of_work(db_param_name, commit_on_success=False)`. -/
def read_only_transaction (db_param_name : String) (param_names : List String)
    (args : List PyArg) (kwargs : List (String × PyArg)) (body : List Op) :
    WrapOutcome :=
  uow_wrapper db_param_name false param_names args kwargs body

/-- Claim C2: with a located live session, an active ambient transaction
makes the wrapper open a savepoint (`begin_nested`, never `begin`): a
successful body merges its writes into the parent buffer with no
commit call; a raising body has only the savepoint undone (parent
buffer and committed store intact) and the exception re-raised. With no
ambient transaction a top-level transaction opens and commits on
success. The last two conjuncts record which scope is opened purely
from `in_transaction()`. -/
theorem uow_wrapper_transaction_scopes (nm : String) (c : Bool)
    (pn : List String) (a : List PyArg) (kw : List (String × PyArg))
    (body : List Op) (s : SessionState)
    (hloc : locate_db_session nm pn a kw = some (PyArg.session s)) :
    (∀ buf buf2, s.txBuf = some buf → runOps body buf = (none, buf2) →
      uow_wrapper nm c pn a kw body =
        WrapOutcome.completed none (SessionState.mk s.committed (some buf2))
          [SessCall.inTransactionQ, SessCall.beginNested]) ∧
    (∀ buf bufx e, s.txBuf = some buf → runOps body buf = (some e, bufx) →
      uow_wrapper nm c pn a kw body =
        WrapOutcome.completed (some e) (SessionState.mk s.committed (some buf))
          [SessCall.inTransactionQ, SessCall.beginNested,
            SessCall.savepointRollback]) ∧
    (∀ buf2, s.txBuf = none → runOps body [] = (none, buf2) →
      uow_wrapper nm c pn a kw body =
        WrapOutcome.completed none (SessionState.mk (s.committed ++ buf2) none)
          [SessCall.inTransactionQ, SessCall.beginTop, SessCall.txCommit]) ∧
    (s.in_transaction = true →
      SessCall.beginNested ∈ (uow_wrapper nm c pn a kw body).calls ∧
      SessCall.beginTop ∉ (uow_wrapper nm c pn a kw body).calls ∧
      SessCall.txCommit ∉ (uow_wrapper nm c pn a kw body).calls) ∧
    (s.in_transaction = false →
      SessCall.beginTop ∈ (uow_wrapper nm c pn a kw body).calls ∧
      SessCall.beginNested ∉ (uow_wrapper nm c pn a kw body).calls) := by
  refine ⟨?_, ?_, ?_, ?_, ?_⟩
  · intro buf buf2 hbuf hrun
    simp only [uow_wrapper, hloc, hbuf, hrun]
  · intro buf bufx e hbuf hrun
    simp only [uow_wrapper, hloc, hbuf, hrun]
  · intro buf2 hbuf hrun
    simp only [uow_wrapper, hloc, hbuf, hrun]
  · intro hin
    have hbuf : ∃ buf, s.txBuf = some buf := by
      rw [SessionState.in_transaction, Option.isSome_iff_exists] at hin
      exact hin
    obtain ⟨buf, hbuf⟩ := hbuf
    cases hr : runOps body buf with
    | mk exc bufr =>
      cases exc with
      | none =>
        simp only [uow_wrapper, hloc, hbuf, hr, WrapOutcome.calls]
        refine ⟨by simp, by simp, by simp⟩
      | some e =>
        simp only [uow_wrapper, hloc, hbuf, hr, WrapOutcome.calls]
        refine ⟨by simp, by simp, by simp⟩
  · intro hin
    have hbuf : s.txBuf = none := by
      rw [SessionState.in_transaction] at hin
      cases h : s.txBuf with
      | none => rfl
      | some b => rw [h] at hin; simp at hin
    cases hr : runOps body [] with
    | mk exc bufr =>
      cases exc with
      | none =>
        simp only [uow_wrapper, hloc, hbuf, hr, WrapOutcome.calls]
        refine ⟨by simp, by simp⟩
      | some e =>
        simp only [uow_wrapper, hloc, hbuf, hr, WrapOutcome.calls]
        refine ⟨by simp, by simp⟩

/-- Witness for claim C2 at a concrete nested call: the session is
inside a transaction with pending write 2, the body adds 3, and the
savepoint merges into the parent with no commit call. -/
theorem uow_wrapper_transaction_scopes_witness :
    uow_wrapper "db" true ["db"] []
        [("db", PyArg.session (SessionState.mk [1] (some [2])))] [Op.add 3] =
      WrapOutcome.completed none (SessionState.mk [1] (some [2, 3]))
        [SessCall.inTransactionQ, SessCall.beginNested] :=
  (uow_wrapper_transaction_scopes "db" true ["db"] []
      [("db", PyArg.session (SessionState.mk [1] (some [2])))] [Op.add 3]
      (SessionState.mk [1] (some [2])) (by decide)).1 [2] [2, 3] rfl rfl

/-- Claim C3: whatever exception the wrapped body raises, the wrapper
rolls back the active scope (the savepoint inside an ambient
transaction, the top-level transaction otherwise), re-raises exactly
that exception — never swallowing it, never replacing it, never turning
it into the configuration error — and no write staged inside the
rolled-back scope survives. -/
theorem uow_wrapper_reraises_and_rolls_back (nm : String) (c : Bool)
    (pn : List String) (a : List PyArg) (kw : List (String × PyArg))
    (body : List Op) (s : SessionState) (e : Nat) (bufx : List Nat)
    (hloc : locate_db_session nm pn a kw = some (PyArg.session s)) :
    (∀ buf, s.txBuf = some buf → runOps body buf = (some e, bufx) →
      (uow_wrapper nm c pn a kw body).raisedErr = some e ∧
      (uow_wrapper nm c pn a kw body).finalSession =
        some (SessionState.mk s.committed (some buf)) ∧
      (uow_wrapper nm c pn a kw body).isConfigError = false) ∧
    (s.txBuf = none → runOps body [] = (some e, bufx) →
      (uow_wrapper nm c pn a kw body).raisedErr = some e ∧
      (uow_wrapper nm c pn a kw body).finalSession =
        some (SessionState.mk s.committed none) ∧
      (uow_wrapper nm c pn a kw body).isConfigError = false) := by
  constructor
  · intro buf hbuf hrun
    simp only [uow_wrapper, hloc, hbuf, hrun, WrapOutcome.raisedErr,
      WrapOutcome.finalSession, WrapOutcome.isConfigError]
    exact ⟨trivial, trivial, trivial⟩
  · intro hbuf hrun
    simp only [uow_wrapper, hloc, hbuf, hrun, WrapOutcome.raisedErr,
      WrapOutcome.finalSession, WrapOutcome.isConfigError]
    exact ⟨trivial, trivial, trivial⟩

/-- Witness for claim C3 at a concrete top-level call: the body stages
write 7 and then raises 42; the wrapper re-raises 42 and the committed
store [9] is untouched. -/
theorem uow_wrapper_reraises_witness :
    (uow_wrapper "db" true ["db"] []
        [("db", PyArg.session (SessionState.mk [9] none))]
        [Op.add 7, Op.raiseErr 42]).raisedErr = some 42 ∧
    (uow_wrapper "db" true ["db"] []
        [("db", PyArg.session (SessionState.mk [9] none))]
        [Op.add 7, Op.raiseErr 42]).finalSession =
      some (SessionState.mk [9] none) ∧
    (uow_wrapper "db" true ["db"] []
        [("db", PyArg.session (SessionState.mk [9] none))]
        [Op.add 7, Op.raiseErr 42]).isConfigError = false :=
  (uow_wrapper_reraises_and_rolls_back "db" true ["db"] []
      [("db", PyArg.session (SessionState.mk [9] none))]
      [Op.add 7, Op.raiseErr 42] (SessionState.mk [9] none) 42 [7]
      (by decide)).2 rfl rfl

/-- Claim C4: when the located argument is missing or is not an
`AsyncSession`, the wrapper raises `MissingDatabaseSessionError` — an
outcome distinct by construction from any exception of the wrapped
body — with zero calls on the session, hence before any transaction is
opened; the body never runs (the outcome is the same for every body). -/
theorem uow_wrapper_config_error_immediate (nm : String) (c : Bool)
    (pn : List String) (a : List PyArg) (kw : List (String × PyArg))
    (body : List Op)
    (h : is_async_session (locate_db_session nm pn a kw) = false) :
    uow_wrapper nm c pn a kw body =
      WrapOutcome.configError
        ("AsyncSession not found or invalid type for parameter " ++ nm) [] ∧
    (uow_wrapper nm c pn a kw body).calls = [] ∧
    (uow_wrapper nm c pn a kw body).isConfigError = true ∧
    ∀ body2, uow_wrapper nm c pn a kw body = uow_wrapper nm c pn a kw body2 := by
  have hmain : ∀ b : List Op, uow_wrapper nm c pn a kw b =
      WrapOutcome.configError
        ("AsyncSession not found or invalid type for parameter " ++ nm) [] := by
    intro b
    unfold uow_wrapper
    cases hl : locate_db_session nm pn a kw with
    | none => rfl
    | some arg =>
      cases arg with
      | session s2 => rw [hl] at h; simp [is_async_session] at h
      | other => rfl
  refine ⟨hmain body, ?_, ?_, fun body2 => (hmain body).trans (hmain body2).symm⟩
  · rw [hmain body]; rfl
  · rw [hmain body]; rfl

/-- Witness for claim C4: the keyword argument "db" is present but is
not a session object; the wrapper fails with the configuration error
and makes no session call. -/
theorem uow_wrapper_config_error_witness :
    uow_wrapper "db" true ["db"] [] [("db", PyArg.other)] [Op.add 1] =
      WrapOutcome.configError
        ("AsyncSession not found or invalid type for parameter " ++ "db") [] ∧
    (uow_wrapper "db" true ["db"] [] [("db", PyArg.other)] [Op.add 1]).calls = [] ∧
    (uow_wrapper "db" true ["db"] [] [("db", PyArg.other)]
        [Op.add 1]).isConfigError = true ∧
    ∀ body2, uow_wrapper "db" true ["db"] [] [("db", PyArg.other)] [Op.add 1] =
      uow_wrapper "db" true ["db"] [] [("db", PyArg.other)] body2 :=
  uow_wrapper_config_error_immediate "db" true ["db"] [] [("db", PyArg.other)]
    [Op.add 1] (by decide)

/-- Claim C9: `read_only_transaction` produces exactly the same outcome
as `transactional` on every invocation — the `commit_on_success` flag
changes nothing — and in particular a successful top-level call under
the read-only wrapper still commits the scope. -/
theorem read_only_transaction_equals_transactional (nm : String)
    (pn : List String) (a : List PyArg) (kw : List (String × PyArg))
    (body : List Op) :
    read_only_transaction nm pn a kw body = transactional nm pn a kw body ∧
    (∀ c1 c2 : Bool,
      uow_wrapper nm c1 pn a kw body = uow_wrapper nm c2 pn a kw body) ∧
    (∀ s buf2, locate_db_session nm pn a kw = some (PyArg.session s) →
      s.txBuf = none → runOps body [] = (none, buf2) →
      (read_only_transaction nm pn a kw body).finalSession =
        some (SessionState.mk (s.committed ++ buf2) none) ∧
      SessCall.txCommit ∈ (read_only_transaction nm pn a kw body).calls) := by
  refine ⟨rfl, fun c1 c2 => rfl, ?_⟩
  intro s buf2 hloc hbuf hrun
  simp only [read_only_transaction, uow_wrapper, hloc, hbuf, hrun,
    WrapOutcome.finalSession, WrapOutcome.calls]
  exact ⟨trivial, by simp⟩

/-- Witness for claim C9: a successful write under the read-only
wrapper on a fresh session is committed exactly as under
`transactional`. -/
theorem read_only_transaction_equals_transactional_witness :
    read_only_transaction "db" ["db"] []
        [("db", PyArg.session (SessionState.mk [] none))] [Op.add 1] =
      transactional "db" ["db"] []
        [("db", PyArg.session (SessionState.mk [] none))] [Op.add 1] ∧
    (read_only_transaction "db" ["db"] []
        [("db", PyArg.session (SessionState.mk [] none))]
        [Op.add 1]).finalSession = some (SessionState.mk [1] none) ∧
    SessCall.txCommit ∈ (read_only_transaction "db" ["db"] []
        [("db", PyArg.session (SessionState.mk [] none))] [Op.add 1]).calls :=
  ⟨(read_only_transaction_equals_transactional "db" ["db"] []
      [("db", PyArg.session (SessionState.mk [] none))] [Op.add 1]).1,
    (read_only_transaction_equals_transactional "db" ["db"] []
        [("db", PyArg.session (SessionState.mk [] none))] [Op.add 1]).2.2
      (SessionState.mk [] none) [1] (by decide) rfl rfl⟩
